import Mathlib

/-!
Shallow embedding of the realtime-synchronization subsystem of the CRM
repository (server: src/server/routes.ts; client: src/client/src/hooks/useWebSocket.ts,
src/client/src/components/AddStageModal.tsx (EditDealModal part),
src/unnamed/part_001 (KanbanBoard)).

Server-side mutable state (the wsClients map, JS Map preserving insertion
order) is modelled as an explicit association list threaded through the
handlers; each Express handler becomes a pure function from its inputs and
the storage black-box results to an HTTP outcome plus the list of broadcast
emissions it performs.  Fallible storage calls are modelled as Except values.
-/

/-- Connection object of the ws library: we keep the identity and the
readyState field (WebSocket.OPEN = 1). -/
structure WSConn where
  cid : Nat
  readyState : Nat
deriving DecidableEq, Repr

/-- WebSocket.OPEN constant of the ws library. -/
def WS_OPEN : Nat := 1

/-- Wire message { type, data } (routes.ts broadcastUpdate / createNotification);
the payload is abstracted to an opaque string since no claim inspects it. -/
structure WSMessage where
  wtype : String
  dataRepr : String
deriving DecidableEq, Repr

/-- The wsClients map (routes.ts line 50): userId to list of connections.
JS Map iteration order is insertion order, hence an association list. -/
structure Registry where
  entries : List (Nat × List WSConn)
deriving DecidableEq, Repr

/-- broadcastUpdate (routes.ts lines 53-66): sends { type, data } to every
connection of every registered user whose readyState is OPEN, but ONLY when
the type is exactly "deals_updated" or "stages_updated"; for every other
type the function only logs and delivers nothing.  The result is the list
of (connection, message) deliveries performed. -/
def broadcastUpdate (ty : String) (dataRepr : String) (reg : Registry) :
    List (WSConn × WSMessage) :=
  if ty = "deals_updated" ∨ ty = "stages_updated" then
    reg.entries.foldr
      (fun e acc =>
        ((e.2.filter (fun ws => ws.readyState = WS_OPEN)).map
          (fun ws => (ws, WSMessage.mk ty dataRepr))) ++ acc)
      []
  else []

/-- Connections that actually receive the event. -/
def deliveredConns (ty : String) (dataRepr : String) (reg : Registry) : List WSConn :=
  (broadcastUpdate ty dataRepr reg).map (fun p => p.1)

/-- A connection is registered (appears in some entry of wsClients). -/
def connInRegistry (ws : WSConn) (reg : Registry) : Prop :=
  ∃ e ∈ reg.entries, ws ∈ e.2

instance (ws : WSConn) (reg : Registry) : Decidable (connInRegistry ws reg) := by
  unfold connInRegistry; infer_instance

/-- Register handler (routes.ts lines 2343-2351): on a { type: "register",
userId } message, create the entry if absent and push the connection;
the push is unconditional, so a connection registering twice under the same
userId appears twice in that entry. -/
def handleRegister (userId : Nat) (ws : WSConn) (reg : Registry) : Registry :=
  if reg.entries.any (fun e => e.1 = userId) then
    Registry.mk (reg.entries.map (fun e => if e.1 = userId then (e.1, e.2 ++ [ws]) else e))
  else
    Registry.mk (reg.entries ++ [(userId, [ws])])

/-- splice(indexOf ws, 1): removes the first occurrence only. -/
def removeFirst (ws : WSConn) : List WSConn → List WSConn
  | [] => []
  | x :: xs => if x = ws then xs else x :: removeFirst ws xs

/-- Close handler body (routes.ts lines 2357-2369) over the entry list: for
each entry containing the connection, splice out its first occurrence and
delete the entry if it became empty; entries not containing it are kept
untouched. -/
def closeEntries (ws : WSConn) : List (Nat × List WSConn) → List (Nat × List WSConn)
  | [] => []
  | e :: rest =>
    if ws ∈ e.2 then
      if removeFirst ws e.2 = [] then closeEntries ws rest
      else (e.1, removeFirst ws e.2) :: closeEntries ws rest
    else e :: closeEntries ws rest

/-- Close handler (routes.ts lines 2357-2369). -/
def handleClose (ws : WSConn) (reg : Registry) : Registry :=
  Registry.mk (closeEntries ws reg.entries)

/-! ## Server data model and route handlers -/

/-- Deal row fields the synchronization claims touch (shared schema table
deals); updatedAt is an abstract millisecond timestamp. -/
structure DealRec where
  did : Nat
  userId : Nat
  leadId : Nat
  stageId : Nat
  pipelineId : Nat
  value : Option Int
  saleStatus : Option String
  lostReason : Option String
  performanceReason : Option String
  notes : Option String
  updatedAt : Nat
deriving DecidableEq, Repr

/-- Pipeline stage row fields used by the handlers and the kanban board. -/
structure StageRec where
  sid : Nat
  pipelineId : Nat
  order : Int
  isHidden : Bool
  stageType : Option String
deriving DecidableEq, Repr

/-- User row (id and email are all the sync code reads). -/
structure UserRec where
  uid : Nat
  email : String
deriving DecidableEq, Repr

/-- Payload of storage.createLeadActivity. -/
structure ActivityInsert where
  dealId : Nat
  activityType : String
  description : String
  createdBy : String
deriving DecidableEq, Repr

/-- JS truthiness of an optional number (0 and absent are falsy). -/
def truthyNat : Option Nat → Bool
  | some n => n != 0
  | none => false

/-- JS truthiness of an optional string (empty and absent are falsy). -/
def truthyStr : Option String → Bool
  | some s => s != ""
  | none => false

/-- Semantics of a try/catch whose catch clause only logs: the thrown
error is dropped and the function returns normally. -/
def swallowError (r : Except String Unit) : Except String Unit :=
  match r with
  | Except.ok _ => Except.ok ()
  | Except.error _ => Except.ok ()

/-- logActivity (routes.ts lines 121-150).  The whole body sits in a
try/catch whose catch only logs, so any failure of storage.getUsers or of
storage.createLeadActivity is swallowed; the inner try/catch around the
user lookup falls back to a placeholder createdBy.  The storage black
boxes are passed in as Except-valued results. -/
def logActivity (store : ActivityInsert → Except String Unit)
    (getUsersResult : Except String (List UserRec))
    (dealId : Nat) (activityType description : String)
    (userId : Option Nat) : Except String Unit :=
  let createdBy :=
    match userId with
    | none => "system"
    | some uid =>
      match getUsersResult with
      | Except.ok us =>
        match us.find? (fun u => u.uid = uid) with
        | some u => u.email
        | none => "User ID " ++ toString uid
      | Except.error _ => "User ID " ++ toString uid
  swallowError (store (ActivityInsert.mk dealId activityType description createdBy))

/-- Fields of insertDealSchema.partial().parse(req.body) that the normal
PUT /api/deals/:id path reads (routes.ts lines 572-712).  A field being
none models it absent (undefined) from the request body. -/
structure DealPatch where
  stageId : Option Nat
  notes : Option String
  pipelineId : Option Nat
  saleStatus : Option String
deriving DecidableEq, Repr

/-- HTTP outcome of a handler: status code plus the ordered list of
broadcastUpdate type strings the handler emitted before responding. -/
structure PutOutcome where
  status : Nat
  emissions : List String
deriving DecidableEq, Repr

/-- Normal-form PUT /api/deals/:id path (routes.ts lines 572-712; the
drag-and-drop path guarded by a dealId body field is a separate branch not
modelled here).  Parameters stand for the storage black boxes:
existingDeal is storage.getDeal, allStages is the stage table backing
storage.getPipelineStages, updateDeal is storage.updateDeal, store and
getUsersResult feed logActivity.  The Chatwoot name-sync block (lines
620-652) only performs an external call whose failure is caught and is
omitted.  Activity descriptions are abstracted to their fixed prefixes
since nothing reads them. -/
def putDealNormal (targetId : Nat) (existingDeal : Option DealRec)
    (vd : DealPatch) (allStages : List StageRec)
    (updateDeal : DealPatch → Option DealRec)
    (store : ActivityInsert → Except String Unit)
    (getUsersResult : Except String (List UserRec))
    (reqUserId : Option Nat) : PutOutcome :=
  match existingDeal with
  | none => PutOutcome.mk 404 []
  | some d =>
    -- if (validatedData.saleStatus && !validatedData.stageId): auto-move to the
    -- won/lost stage of the current pipeline, logging a sale_won/sale_lost activity
    let stages := allStages.filter (fun s => s.pipelineId = d.pipelineId)
    let wonStage := stages.find? (fun s => s.stageType = some "completed")
    let lostStage := stages.find? (fun s => s.stageType = some "lost")
    let step :=
      if truthyStr vd.saleStatus && !truthyNat vd.stageId then
        if vd.saleStatus = some "won" && wonStage.isSome then
          ({ vd with stageId := wonStage.map (fun s => s.sid) },
           logActivity store getUsersResult targetId "sale_won"
             "Negocio marcado como Venda Realizada" reqUserId)
        else if vd.saleStatus = some "lost" && lostStage.isSome then
          ({ vd with stageId := lostStage.map (fun s => s.sid) },
           logActivity store getUsersResult targetId "sale_lost"
             "Negocio marcado como Venda Perdida" reqUserId)
        else (vd, Except.ok ())
      else (vd, Except.ok ())
    match step with
    | (vd2, saleLog) =>
      match saleLog with
      | Except.error _ => PutOutcome.mk 500 []  -- an uncaught throw would hit the route catch
      | Except.ok _ =>
        -- const stageChanged = validatedData.stageId && validatedData.stageId !== existingDeal.stageId
        let stageChanged :=
          match vd2.stageId with
          | some s => (s != 0) && (s != d.stageId)
          | none => false
        match updateDeal vd2 with
        | none => PutOutcome.mk 404 []
        | some _updated =>
          -- stage-change activity: its own try/catch swallows even a thrown error
          let _stageLog :=
            if stageChanged then
              logActivity store getUsersResult targetId "stage_moved"
                "Lead movido de estagio" reqUserId
            else Except.ok ()
          PutOutcome.mk 200
            (["deal:updated"]
              ++ (if vd2.notes.isSome then ["notes:updated"] else [])
              ++ (if vd2.pipelineId.isSome then ["pipeline:changed"] else []))

/-- Authenticated requester decoded from the JWT. -/
structure AuthUser where
  uid : Nat
  role : String
deriving DecidableEq, Repr

/-- storage.getDealsByStage over the deal table. -/
def getDealsByStage (table : List DealRec) (s : Nat) : List DealRec :=
  table.filter (fun d => d.stageId = s)

/-- storage.getDeals with a pipeline filter over the deal table. -/
def getDealsByPipeline (table : List DealRec) (p : Nat) : List DealRec :=
  table.filter (fun d => d.pipelineId = p)

/-- Enriched deal shape returned by GET /api/deals (routes.ts lines
342-366): the deal fields are spread unchanged, plus creator info; the
lead sub-object is independent of the claims and abstracted away. -/
structure EnrichedDeal where
  deal : DealRec
  creatorUserId : Nat
  creatorUserEmail : String
deriving DecidableEq, Repr

/-- Enrichment of one deal (routes.ts lines 343-365). -/
def enrichDeal (userTable : List UserRec) (d : DealRec) : EnrichedDeal :=
  EnrichedDeal.mk d d.userId
    (match userTable.find? (fun u => u.uid = d.userId) with
     | some u => u.email
     | none => "")

/-- GET /api/deals handler (routes.ts lines 302-372) after auth: query
parameters are Option-valued (none covers both an absent parameter and a
NaN parse, which the typeof/isNaN guards treat alike); admins may see
everything and can filter by userId (JS truthiness: a 0 filter is
ignored), non-admins have every branch filtered to their own deals; a
provided pipelineId is re-applied at the end. -/
def getDealsHandler (user : AuthUser) (stageIdQ pipelineIdQ filterUserIdQ : Option Nat)
    (dealTable : List DealRec) (userTable : List UserRec) : List EnrichedDeal :=
  let base : List DealRec :=
    if user.role = "admin" then
      let sel :=
        match stageIdQ with
        | some s => getDealsByStage dealTable s
        | none =>
          match pipelineIdQ with
          | some p => getDealsByPipeline dealTable p
          | none => dealTable
      if truthyNat filterUserIdQ then
        sel.filter (fun d => some d.userId = filterUserIdQ)
      else sel
    else
      match stageIdQ with
      | some s => (getDealsByStage dealTable s).filter (fun d => d.userId = user.uid)
      | none =>
        match pipelineIdQ with
        | some p => (getDealsByPipeline dealTable p).filter (fun d => d.userId = user.uid)
        | none => dealTable.filter (fun d => d.userId = user.uid)
  let refiltered : List DealRec :=
    match pipelineIdQ with
    | some p => base.filter (fun d => d.pipelineId = p)
    | none => base
  refiltered.map (enrichDeal userTable)

/-! ## Client: useWebSocket hook (src/client/src/hooks/useWebSocket.ts) -/

/-- Cache operations the onmessage dispatcher performs via the query
client (useWebSocket.ts lines 41-83). -/
inductive CacheAction where
  | removeDealsQueries
  | invalidateDeals
  | invalidateDealById (dealId : Nat)
  | invalidateLeads
  | invalidateLeadById (leadId : Nat)
deriving DecidableEq, Repr

/-- onmessage dispatcher (useWebSocket.ts lines 35-87): switch over
message.type; unknown types are only logged.  The optional id mirrors
message.data.dealId / message.data.leadId with JS truthiness. -/
def handleClientMessage (ty : String) (idField : Option Nat) : List CacheAction :=
  if ty = "deal:updated" then
    [CacheAction.removeDealsQueries, CacheAction.invalidateDeals]
      ++ (if truthyNat idField then
            match idField with
            | some i => [CacheAction.invalidateDealById i]
            | none => []
          else [])
  else if ty = "deal:created" then [CacheAction.invalidateDeals]
  else if ty = "deal:deleted" then [CacheAction.invalidateDeals]
  else if ty = "lead:updated" then
    [CacheAction.invalidateLeads]
      ++ (match idField with
          | some i => [CacheAction.invalidateLeadById i]
          | none => [])
  else []

/-- Client-observable state of the useWebSocket hook: the readyState of
the current socket (none before any connect), the isConnected flag, the
pending reconnect timeout delay in ms (none when no timer is scheduled),
the list of messages the hook has sent over the socket, and the cache
actions performed so far. -/
structure HookState where
  wsReady : Option Nat
  isConnected : Bool
  reconnectDelay : Option Nat
  sentMessages : List String
  cacheActions : List CacheAction
deriving DecidableEq, Repr

/-- Events driving the hook: connect() invocations (mount or the
reconnect timer callback), socket open/close/error events, incoming
messages, and the 3-second reconnect timer firing. -/
inductive HookEvent where
  | connectCall
  | socketOpen
  | socketClose
  | socketError
  | socketMessage (ty : String) (idField : Option Nat)
  | reconnectFire
deriving DecidableEq, Repr

/-- connect() body (useWebSocket.ts lines 15-108): an early return when the
socket is already OPEN, otherwise a new WebSocket is created (CONNECTING,
readyState 0) and handlers are installed.  Nothing is sent. -/
def connectStep (st : HookState) : HookState :=
  if st.wsReady = some WS_OPEN then st
  else { st with wsReady := some 0 }

/-- One transition of the hook per event.  onopen (lines 26-33) sets
isConnected and clears a pending reconnect timeout; onmessage (35-87)
only performs cache actions; onclose (89-97) clears isConnected and
schedules connect() after a constant 3000 ms; onerror (99-102) clears
isConnected; the timer firing consumes the pending timeout and runs
connect().  No handler sends a message on the socket. -/
def hookStep (ev : HookEvent) (st : HookState) : HookState :=
  match ev with
  | HookEvent.connectCall => connectStep st
  | HookEvent.socketOpen =>
    { st with wsReady := some WS_OPEN, isConnected := true, reconnectDelay := none }
  | HookEvent.socketClose =>
    { st with wsReady := some 3, isConnected := false, reconnectDelay := some 3000 }
  | HookEvent.socketError => { st with isConnected := false }
  | HookEvent.socketMessage ty idField =>
    { st with cacheActions := st.cacheActions ++ handleClientMessage ty idField }
  | HookEvent.reconnectFire => connectStep { st with reconnectDelay := none }

/-- Run a sequence of hook events from a state. -/
def runHook (evs : List HookEvent) (st : HookState) : HookState :=
  match evs with
  | [] => st
  | e :: rest => runHook rest (hookStep e st)

/-- Initial hook state on mount, before the effect calls connect(). -/
def hookInit : HookState :=
  HookState.mk none false none [] []

/-! ## Client: notes editing guard
(src/client/src/components/AddStageModal.tsx, EditDealModal part) -/

/-- A JS string-or-null-or-undefined value, as flowing out of
dealDataFromApi?.notes (undefined while the query is pending, null or a
string from the Deal row) and deal.notes (Partial of Deal). -/
inductive JStr where
  | undef
  | jnull
  | str (s : String)
deriving DecidableEq, Repr

/-- JS expression (v || "") : String. -/
def jsOrEmpty : JStr → String
  | JStr.str s => s
  | _ => ""

/-- JS strict inequality (a !== b) between a known string and a JStr. -/
def strNeq (a : String) : JStr → Bool
  | JStr.str s => a != s
  | _ => true

/-- JS strict inequality (v !== "") of a JStr against the empty string. -/
def neqEmptyStr : JStr → Bool
  | JStr.str s => s != ""
  | _ => true

/-- Component state touched by the notes synchronization: the textarea
value, the editing guard, the stored last-known server value, the manual
refresh affordance flag, and the pending 10-second idle timer deadline. -/
structure ModalState where
  notes : String
  isEditingNotes : Bool
  latestNotesFromDB : String
  showRefreshButton : Bool
  typingTimeout : Option Nat
deriving DecidableEq, Repr

/-- The value picked at AddStageModal.tsx line 722:
dealDataFromApi?.notes !== undefined ? dealDataFromApi.notes : deal.notes || "". -/
def latestNotesChoice (apiNotes dealNotes : JStr) : JStr :=
  if apiNotes != JStr.undef then apiNotes else JStr.str (jsOrEmpty dealNotes)

/-- Notes reconciliation effect (AddStageModal.tsx lines 719-746): when
the modal is open on a deal, always store the normalized incoming value;
when not editing, overwrite the field and hide the refresh button; when
editing, leave the field alone and show the refresh button exactly when
notes !== latestNotesFromDatabase && latestNotesFromDatabase !== ""
(both comparisons on the raw, unnormalized value). -/
def reconcileNotes (isOpen dealPresent : Bool) (apiNotes dealNotes : JStr)
    (st : ModalState) : ModalState :=
  if isOpen && dealPresent then
    let latest := latestNotesChoice apiNotes dealNotes
    let st1 := { st with latestNotesFromDB := jsOrEmpty latest }
    if !st1.isEditingNotes then
      { st1 with notes := jsOrEmpty latest, showRefreshButton := false }
    else
      { st1 with showRefreshButton := strNeq st1.notes latest && neqEmptyStr latest }
  else st

/-- handleNotesChange (AddStageModal.tsx lines 687-693): store the
keystroke value, raise the editing guard, clear any pending idle timer
and schedule a fresh one 10000 ms from now. -/
def handleNotesChange (v : String) (now : Nat) (st : ModalState) : ModalState :=
  { st with notes := v, isEditingNotes := true, typingTimeout := some (now + 10000) }

/-- The idle-timer callback (setTimeout(() => setIsEditingNotes(false),
10000)): fires only if it is still the currently scheduled timer (an
overwritten timer was cleared by clearTimeout), and clears the guard. -/
def typingTimerFire (t : Nat) (st : ModalState) : ModalState :=
  if st.typingTimeout = some t then
    { st with isEditingNotes := false, typingTimeout := none }
  else st

/-- handleRefreshNotes (AddStageModal.tsx lines 696-705): copy the stored
server value into the field, hide the refresh button, drop the guard. -/
def handleRefreshNotes (st : ModalState) : ModalState :=
  { st with notes := st.latestNotesFromDB, showRefreshButton := false,
            isEditingNotes := false }

/-! ## Client: kanban board fetch application (src/unnamed/part_001, KanbanBoard) -/

/-- Column of the rendered board: a stage together with its deals and the
sum of their values (stagesWithDeals entries, part_001 lines 230-293). -/
structure StageColumn where
  stage : StageRec
  deals : List DealRec
  totalValue : Int
deriving DecidableEq, Repr

/-- Deals shown in one stage column (part_001 lines 232-271): a completed
stage shows every deal in it or marked won (optionally filtered by the
sale-performance filter), a lost stage shows every deal in it or marked
lost (optionally filtered by the loss-reason filter, whose comparison
first requires deal.lostReason to be truthy), a normal stage shows its
own deals that are neither won nor lost. -/
def stageDealsFor (stage : StageRec) (dealsData : List DealRec)
    (salePerformanceFilter lossReasonFilter : String) : List DealRec :=
  if stage.stageType = some "completed" then
    let wonDeals := dealsData.filter
      (fun dl => dl.stageId = stage.sid ∨ dl.saleStatus = some "won")
    if salePerformanceFilter != "all" then
      wonDeals.filter (fun dl => dl.performanceReason = some salePerformanceFilter)
    else wonDeals
  else if stage.stageType = some "lost" then
    let lostDeals := dealsData.filter
      (fun dl => dl.stageId = stage.sid ∨ dl.saleStatus = some "lost")
    if lossReasonFilter != "all" then
      lostDeals.filter (fun dl => truthyStr dl.lostReason && dl.lostReason = some lossReasonFilter)
    else lostDeals
  else
    dealsData.filter (fun dl =>
      dl.stageId = stage.sid && dl.saleStatus != some "won" && dl.saleStatus != some "lost")

/-- Comparator of the final .sort (part_001 lines 286-293): completed and
lost stages last, otherwise by the order field. -/
def stageCmp (a b : StageColumn) : Int :=
  if a.stage.stageType = some "completed" ∧ b.stage.stageType ≠ some "completed" then 1
  else if a.stage.stageType ≠ some "completed" ∧ b.stage.stageType = some "completed" then -1
  else if a.stage.stageType = some "lost" ∧ b.stage.stageType ≠ some "lost" then 1
  else if a.stage.stageType ≠ some "lost" ∧ b.stage.stageType = some "lost" then -1
  else a.stage.order - b.stage.order

/-- Stable insertion into a sorted list: insert a before the first b it
does not compare after.  Together with sortColumns this reproduces the
stable Array.prototype.sort of modern JS engines. -/
def insertCol (a : StageColumn) : List StageColumn → List StageColumn
  | [] => [a]
  | b :: bs => if stageCmp a b ≤ 0 then a :: b :: bs else b :: insertCol a bs

/-- Stable sort by the stageCmp comparator. -/
def sortColumns : List StageColumn → List StageColumn
  | [] => []
  | a :: rest => insertCol a (sortColumns rest)

/-- Application of one successful fetch response by fetchDeals (part_001
lines 139-300): the function rebuilds the whole board from the response
alone and stores it with setBoardData, with three early returns — no
active pipeline clears the board, an empty pipelineStages prop leaves the
previous board untouched, and a pipeline with no stages clears the board.
No updatedAt (or any other) comparison against the previously displayed
board is performed before applying the response. -/
def fetchDealsApply (activePipelineId : Option Nat) (pipelineStages : List StageRec)
    (salePerformanceFilter lossReasonFilter : String)
    (dealsData : List DealRec) (board : List StageColumn) : List StageColumn :=
  match activePipelineId with
  | none => []
  | some pid =>
    if pipelineStages.isEmpty then board
    else
      let currentPipelineStages := pipelineStages.filter (fun s => s.pipelineId = pid)
      if currentPipelineStages.isEmpty then []
      else
        sortColumns
          ((currentPipelineStages.filter (fun s => !s.isHidden)).map
            (fun s =>
              let ds := stageDealsFor s dealsData salePerformanceFilter lossReasonFilter
              StageColumn.mk s ds (ds.foldl (fun acc dl => acc + dl.value.getD 0) 0)))

/-! ## Helper lemmas -/

/-- A swallowed result is always a normal return. -/
theorem swallowError_ok (r : Except String Unit) : swallowError r = Except.ok () := by
  cases r <;> rfl

/-- The try/catch wrapping the whole logActivity body means the function
returns normally whatever the storage outcomes are. -/
theorem logActivity_ok (store : ActivityInsert → Except String Unit)
    (gu : Except String (List UserRec)) (d : Nat) (a ds : String)
    (u : Option Nat) : logActivity store gu d a ds u = Except.ok () := by
  unfold logActivity
  exact swallowError_ok _

/-! ## Claims -/

/-- C5: a failure of the activity-log write (storage.createLeadActivity
throwing) is swallowed inside logActivity, and the PUT /api/deals/:id
response (status and emitted broadcasts) is identical whatever the
activity store does: the parent mutation is never reported as failed
because of it. -/
theorem C5_activity_failure_swallowed (targetId : Nat) (ed : Option DealRec)
    (vd : DealPatch) (allStages : List StageRec)
    (updateDeal : DealPatch → Option DealRec)
    (store1 store2 : ActivityInsert → Except String Unit)
    (gu : Except String (List UserRec)) (uid : Option Nat) :
    logActivity store1 gu targetId "stage_moved" "Lead movido de estagio" uid
        = Except.ok () ∧
    putDealNormal targetId ed vd allStages updateDeal store1 gu uid
      = putDealNormal targetId ed vd allStages updateDeal store2 gu uid := by
  refine ⟨logActivity_ok _ _ _ _ _ _, ?_⟩
  unfold putDealNormal
  simp only [logActivity_ok]

/-- C7: every keystroke in the notes field raises the editing guard and
schedules a fresh single 10000 ms idle timer (replacing the previous
one); if that timer fires with no further keystroke the guard is cleared
without an explicit save; a timer superseded by a later keystroke no
longer fires. -/
theorem C7_keystroke_timer (st : ModalState) (v : String) (t : Nat) :
    (handleNotesChange v t st).isEditingNotes = true ∧
    (handleNotesChange v t st).typingTimeout = some (t + 10000) ∧
    (typingTimerFire (t + 10000) (handleNotesChange v t st)).isEditingNotes = false ∧
    (∀ v2 t2, (handleNotesChange v2 t2 (handleNotesChange v t st)).typingTimeout
        = some (t2 + 10000)) ∧
    (∀ v2 t2, t2 + 10000 ≠ t + 10000 →
      typingTimerFire (t + 10000) (handleNotesChange v2 t2 (handleNotesChange v t st))
        = handleNotesChange v2 t2 (handleNotesChange v t st)) := by
  refine ⟨rfl, rfl, by simp [handleNotesChange, typingTimerFire], fun v2 t2 => rfl, ?_⟩
  intro v2 t2 h
  simp [handleNotesChange, typingTimerFire, h]

/-- Sample modal state used to instantiate claim theorems. -/
def mState0 : ModalState := ModalState.mk "" false "" false none

/-- Witness for C7 at a concrete state and times. -/
theorem C7_keystroke_timer_witness :
    (1 + 10000 ≠ 0 + 10000) ∧
    typingTimerFire (0 + 10000)
        (handleNotesChange "b" 1 (handleNotesChange "a" 0 mState0))
      = handleNotesChange "b" 1 (handleNotesChange "a" 0 mState0) :=
  ⟨by decide, (C7_keystroke_timer mState0 "a" 0).2.2.2.2 "b" 1 (by decide)⟩

/-- C8: the manual refresh affordance copies the last known server value
into the local field and clears both the editing guard and the refresh
(diverged) flag. -/
theorem C8_manual_refresh (st : ModalState) :
    (handleRefreshNotes st).notes = st.latestNotesFromDB ∧
    (handleRefreshNotes st).isEditingNotes = false ∧
    (handleRefreshNotes st).showRefreshButton = false ∧
    (handleRefreshNotes st).latestNotesFromDB = st.latestNotesFromDB := by
  simp [handleRefreshNotes]

/-- C10: on GET /api/deals, a requester whose role is not admin receives
only deals whose userId equals their own id, whatever combination of
stageId, pipelineId and userId query parameters was sent. -/
theorem C10_nonadmin_owns_all (user : AuthUser) (sq pq fq : Option Nat)
    (dealTable : List DealRec) (userTable : List UserRec)
    (h : user.role ≠ "admin") :
    ∀ e ∈ getDealsHandler user sq pq fq dealTable userTable,
      e.deal.userId = user.uid := by
  intro e he
  simp only [getDealsHandler, if_neg h, getDealsByStage, getDealsByPipeline] at he
  obtain ⟨d, hd, rfl⟩ := List.mem_map.mp he
  rcases sq with _ | s <;> rcases pq with _ | p <;>
    simp only [List.mem_filter, decide_eq_true_eq, enrichDeal] at hd ⊢ <;> tauto

/-- Sample non-admin requester, deal and user tables for the C10 witness. -/
def nonAdminUser : AuthUser := AuthUser.mk 2 "user"

/-- Sample deal table containing deals of two different owners. -/
def dealTable0 : List DealRec :=
  [DealRec.mk 1 2 3 4 5 (some 100) none none none (some "a") 100,
   DealRec.mk 2 3 3 4 5 (some 200) none none none (some "b") 150]

/-- Sample user table. -/
def userTable0 : List UserRec :=
  [UserRec.mk 2 "u2@example.com", UserRec.mk 3 "u3@example.com"]

/-- Witness for C10 at a concrete non-admin request. -/
theorem C10_nonadmin_owns_all_witness :
    nonAdminUser.role ≠ "admin" ∧
    ∀ e ∈ getDealsHandler nonAdminUser none (some 5) (some 3) dealTable0 userTable0,
      e.deal.userId = nonAdminUser.uid :=
  ⟨by decide,
   C10_nonadmin_owns_all nonAdminUser none (some 5) (some 3) dealTable0 userTable0
     (by decide)⟩

/-- Sample existing deal for the PUT handler evaluations. -/
def dealA : DealRec :=
  DealRec.mk 1 2 3 4 5 (some 100) none none none (some "old") 100

/-- A registered, open connection. -/
def connA : WSConn := WSConn.mk 10 WS_OPEN

/-- Registry with user 2 registered on the open connection connA. -/
def regOpen : Registry := Registry.mk [(2, [connA])]

/-- Request body of a plain notes update through the deal form. -/
def vdNotes : DealPatch := DealPatch.mk none (some "new notes") none none

/-- storage.updateDeal result for the sample update. -/
def updOK : DealPatch → Option DealRec := fun _ => some dealA

/-- storage.createLeadActivity that succeeds. -/
def storeOK : ActivityInsert → Except String Unit := fun _ => Except.ok ()

/-- C1 (code bug): a successful PUT /api/deals/:id notes update emits the
broadcasts deal:updated and notes:updated (already two events, not
exactly one), and broadcastUpdate delivers NEITHER of them to anybody —
not even to a registered observer whose connection is open — because its
type filter only passes the strings deals_updated and stages_updated,
which no emitter ever uses, while the client dispatcher consumes exactly
deal:updated. -/
theorem C1_broadcast_never_delivered :
    putDealNormal 1 (some dealA) vdNotes [] updOK storeOK (Except.ok []) (some 2)
      = PutOutcome.mk 200 ["deal:updated", "notes:updated"] ∧
    broadcastUpdate "deal:updated" "payload" regOpen = [] ∧
    broadcastUpdate "notes:updated" "payload" regOpen = [] ∧
    connA.readyState = WS_OPEN ∧
    connInRegistry connA regOpen ∧
    handleClientMessage "deal:updated" (some 1) ≠ [] := by
  refine ⟨?_, by decide, by decide, by decide, by decide, by decide⟩
  decide

/-- Every pair delivered by broadcastUpdate over any entry list comes from
a connection stored in one of the entries. -/
theorem mem_broadcast_fold (ty dataRepr : String) (c : WSConn) (m : WSMessage) :
    ∀ entries : List (Nat × List WSConn),
      (c, m) ∈ entries.foldr
        (fun e acc =>
          ((e.2.filter (fun ws => ws.readyState = WS_OPEN)).map
            (fun ws => (ws, WSMessage.mk ty dataRepr))) ++ acc)
        [] →
      ∃ e ∈ entries, c ∈ e.2 := by
  intro entries
  induction entries with
  | nil => simp
  | cons e rest ih =>
    intro h
    simp only [List.foldr_cons, List.mem_append] at h
    rcases h with h | h
    · obtain ⟨ws, hws, heq⟩ := List.mem_map.mp h
      obtain ⟨hmem, _⟩ := List.mem_filter.mp hws
      refine ⟨e, List.mem_cons_self e rest, ?_⟩
      have hc : ws = c := congrArg Prod.fst heq
      exact hc ▸ hmem
    · obtain ⟨e2, he2, hc⟩ := ih h
      exact ⟨e2, List.mem_cons_of_mem e he2, hc⟩

/-- C4 counterexample: connB is a live, open broadcast-channel connection
that never sent a register message (it is in no registry entry); the
global event deals_updated is delivered to the registered connA but NOT
to connB, refuting delivery of global events to unregistered observers. -/
def connB : WSConn := WSConn.mk 20 WS_OPEN

/-- C4 counterexample theorem. -/
theorem C4_counterexample :
    connB.readyState = WS_OPEN ∧
    ¬ connInRegistry connB regOpen ∧
    deliveredConns "deals_updated" "d" regOpen = [connA] ∧
    connB ∉ deliveredConns "deals_updated" "d" regOpen := by
  decide

/-- C4 amended: broadcastUpdate delivers (global events included) only to
connections present in some entry of the wsClients registry; a connection
that never registered receives nothing at all. -/
theorem C4_registered_only (ty dataRepr : String) (reg : Registry)
    (c : WSConn) (m : WSMessage)
    (h : (c, m) ∈ broadcastUpdate ty dataRepr reg) : connInRegistry c reg := by
  unfold broadcastUpdate at h
  split at h
  · exact mem_broadcast_fold ty dataRepr c m reg.entries h
  · exact absurd h (List.not_mem_nil _)

/-- Witness for C4 amended at a concrete delivered pair. -/
theorem C4_registered_only_witness :
    (connA, WSMessage.mk "deals_updated" "d")
        ∈ broadcastUpdate "deals_updated" "d" regOpen ∧
    connInRegistry connA regOpen :=
  ⟨by decide,
   C4_registered_only "deals_updated" "d" regOpen connA
     (WSMessage.mk "deals_updated" "d") (by decide)⟩

/-- Splicing out the sole occurrence leaves no occurrence behind. -/
theorem notMem_removeFirst (ws : WSConn) :
    ∀ l : List WSConn, l.count ws ≤ 1 → ws ∉ removeFirst ws l := by
  intro l
  induction l with
  | nil => simp [removeFirst]
  | cons x xs ih =>
    intro h hmem
    by_cases hx : x = ws
    · subst hx
      simp only [removeFirst, if_pos rfl] at hmem
      have hcount : xs.count x + 1 ≤ 1 := by
        simpa [List.count_cons] using h
      have hzero : xs.count x = 0 := by omega
      have : 0 < xs.count x := List.count_pos_iff.mpr hmem
      omega
    · simp only [removeFirst, if_neg hx, List.mem_cons] at hmem
      rcases hmem with hmem | hmem
      · exact hx hmem.symm
      · have h2 : xs.count ws ≤ 1 := by
          simpa [List.count_cons, Ne.symm hx] using h
        exact ih h2 hmem

/-- After the close handler runs over an entry list in which the closing
connection occurs at most once per entry and no entry is empty, the
connection is in no remaining entry and no remaining entry is empty. -/
theorem closeEntries_spec (ws : WSConn) :
    ∀ entries : List (Nat × List WSConn),
      (∀ e ∈ entries, e.2.count ws ≤ 1 ∧ e.2 ≠ []) →
      ∀ e ∈ closeEntries ws entries, ws ∉ e.2 ∧ e.2 ≠ [] := by
  intro entries
  induction entries with
  | nil => simp [closeEntries]
  | cons e rest ih =>
    intro h e2 he2
    have hrest := ih (fun x hx => h x (List.mem_cons_of_mem e hx))
    have hhead := h e (List.mem_cons_self e rest)
    unfold closeEntries at he2
    split at he2
    · split at he2
      · exact hrest e2 he2
      · rcases List.mem_cons.mp he2 with rfl | he2
        · exact ⟨notMem_removeFirst ws e.2 hhead.1, by assumption⟩
        · exact hrest e2 he2
    · rcases List.mem_cons.mp he2 with rfl | he2
      · exact ⟨by assumption, hhead.2⟩
      · exact hrest e2 he2

/-- The connection used in the C9 scenarios. -/
def connW : WSConn := WSConn.mk 7 WS_OPEN

/-- Registry obtained when one connection sends the register message twice
with the same userId: the unconditional push stores it twice. -/
def regDup : Registry :=
  handleRegister 2 connW (handleRegister 2 connW (Registry.mk []))

/-- C9 counterexample: after a double registration under the same subject
id, processing the close event removes only the first occurrence, so the
closed connection is still present in that subject entry of the registry. -/
theorem C9_counterexample :
    regDup = Registry.mk [(2, [connW, connW])] ∧
    handleClose connW regDup = Registry.mk [(2, [connW])] ∧
    connInRegistry connW (handleClose connW regDup) := by
  decide

/-- C9 amended: provided the closing connection occurs at most once in
each subject entry (one register message per subject) and no entry is
empty, the close handler removes it from every entry and leaves no
subject mapped to an empty connection list. -/
theorem C9_close_removes_registration (ws : WSConn) (reg : Registry)
    (h : ∀ e ∈ reg.entries, e.2.count ws ≤ 1 ∧ e.2 ≠ []) :
    ¬ connInRegistry ws (handleClose ws reg) ∧
    ∀ e ∈ (handleClose ws reg).entries, e.2 ≠ [] := by
  constructor
  · rintro ⟨e, he, hmem⟩
    exact (closeEntries_spec ws reg.entries h e he).1 hmem
  · intro e he
    exact (closeEntries_spec ws reg.entries h e he).2

/-- Registry with two singly-registered users for the C9 witness. -/
def regW : Registry := Registry.mk [(1, [connA]), (2, [connA, connW])]

/-- Witness for C9 amended on a concrete registry. -/
theorem C9_close_removes_registration_witness :
    (∀ e ∈ regW.entries, e.2.count connW ≤ 1 ∧ e.2 ≠ []) ∧
    (¬ connInRegistry connW (handleClose connW regW) ∧
      ∀ e ∈ (handleClose connW regW).entries, e.2 ≠ []) :=
  ⟨by decide, C9_close_removes_registration connW regW (by decide)⟩

/-- No transition of the useWebSocket hook ever sends a message over the
socket. -/
theorem hookStep_sent (ev : HookEvent) (st : HookState) :
    (hookStep ev st).sentMessages = st.sentMessages := by
  cases ev <;> simp [hookStep, connectStep] <;> split <;> rfl

/-- Running any event sequence leaves the sent-message log unchanged. -/
theorem runHook_sent (evs : List HookEvent) :
    ∀ st : HookState, (runHook evs st).sentMessages = st.sentMessages := by
  induction evs with
  | nil => intro st; rfl
  | cons e rest ih =>
    intro st
    calc (runHook rest (hookStep e st)).sentMessages
        = (hookStep e st).sentMessages := ih (hookStep e st)
      _ = st.sentMessages := hookStep_sent e st

/-- An event sequence realizing a disconnect followed by a successful
reconnection. -/
def reconnectTrace : List HookEvent :=
  [HookEvent.connectCall, HookEvent.socketOpen, HookEvent.socketClose,
   HookEvent.reconnectFire, HookEvent.socketOpen]

/-- C6 counterexample: the client does schedule a constant 3000 ms
reconnect on close and does reconnect successfully, but the set of
messages it has sent over the channel after reconnection is empty — no
registration message is ever sent, on first connect or on reconnect. -/
theorem C6_counterexample :
    (runHook [HookEvent.connectCall, HookEvent.socketOpen, HookEvent.socketClose]
        hookInit).reconnectDelay = some 3000 ∧
    (runHook reconnectTrace hookInit).isConnected = true ∧
    (runHook reconnectTrace hookInit).sentMessages = [] := by
  decide

/-- C6 amended: on every close event the hook clears the live flag and
schedules connect() after a constant 3000 ms delay, and across any event
sequence the hook never sends any message — in particular no registration
message binding the connection to a subject id is ever (re-)sent. -/
theorem C6_reconnect_no_register :
    (∀ evs : List HookEvent, (runHook evs hookInit).sentMessages = []) ∧
    (∀ st : HookState,
      (hookStep HookEvent.socketClose st).reconnectDelay = some 3000 ∧
      (hookStep HookEvent.socketClose st).isConnected = false) := by
  constructor
  · intro evs
    exact runHook_sent evs hookInit
  · intro st
    exact ⟨rfl, rfl⟩

/-- Modal state of a user mid-edit with unsaved local text. -/
def stEdit : ModalState := ModalState.mk "Hello" true "x" false none

/-- C2 counterexample: with the editing guard active and local value
Hello, an incoming authoritative notes value of null (a deal whose notes
column is unset) is empty/missing — the code itself stores it normalized
as the empty string — yet the stale flag IS set, because the comparison
latestNotesFromDatabase !== "" is true for null. -/
theorem C2_counterexample :
    (reconcileNotes true true JStr.jnull (JStr.str "old") stEdit).latestNotesFromDB
      = "" ∧
    (reconcileNotes true true JStr.jnull (JStr.str "old") stEdit).showRefreshButton
      = true ∧
    (reconcileNotes true true JStr.jnull (JStr.str "old") stEdit).notes = "Hello" := by
  decide

/-- C2 amended: while the editing guard is active the local value is
never overwritten and the incoming value (normalized with || "") is
stored as the last known server value; the stale flag is set exactly when
the raw incoming value is strictly different from the local value AND
strictly different from the empty string — so a string-valued incoming
value behaves as the claim states (empty string never sets the flag), but
a null incoming value sets the flag whenever the local value is any
string. -/
theorem C2_editing_guard (st : ModalState) (apiNotes dealNotes : JStr)
    (h : st.isEditingNotes = true) :
    (reconcileNotes true true apiNotes dealNotes st).notes = st.notes ∧
    (reconcileNotes true true apiNotes dealNotes st).isEditingNotes = true ∧
    (reconcileNotes true true apiNotes dealNotes st).latestNotesFromDB
      = jsOrEmpty (latestNotesChoice apiNotes dealNotes) ∧
    (reconcileNotes true true apiNotes dealNotes st).showRefreshButton
      = (strNeq st.notes (latestNotesChoice apiNotes dealNotes)
          && neqEmptyStr (latestNotesChoice apiNotes dealNotes)) ∧
    (∀ s : String, apiNotes = JStr.str s →
      ((reconcileNotes true true apiNotes dealNotes st).showRefreshButton = true ↔
        st.notes ≠ s ∧ s ≠ "")) := by
  have hmain : reconcileNotes true true apiNotes dealNotes st =
      { st with
          latestNotesFromDB := jsOrEmpty (latestNotesChoice apiNotes dealNotes),
          showRefreshButton := strNeq st.notes (latestNotesChoice apiNotes dealNotes)
            && neqEmptyStr (latestNotesChoice apiNotes dealNotes) } := by
    simp [reconcileNotes, h]
  rw [hmain]
  refine ⟨rfl, h, rfl, rfl, ?_⟩
  intro s hs
  subst hs
  simp [latestNotesChoice, strNeq, neqEmptyStr]

/-- Witness for C2 amended at a concrete editing state and string-valued
incoming notes. -/
theorem C2_editing_guard_witness :
    stEdit.isEditingNotes = true ∧
    (reconcileNotes true true (JStr.str "Hello world") (JStr.str "old")
        stEdit).notes = stEdit.notes ∧
    (reconcileNotes true true (JStr.str "Hello world") (JStr.str "old")
        stEdit).showRefreshButton = true :=
  have hth := C2_editing_guard stEdit (JStr.str "Hello world") (JStr.str "old") rfl
  ⟨rfl, hth.1, (hth.2.2.2.2 "Hello world" rfl).mpr (by decide)⟩

/-- Stage and two fetch responses for the C3 scenario: the same deal at
two versions, the older one carrying the smaller updatedAt. -/
def stageN : StageRec := StageRec.mk 1 1 0 false none

/-- Newer server snapshot of the deal. -/
def dealNew : DealRec :=
  DealRec.mk 1 2 3 1 1 (some 100) none none none (some "v2") 200

/-- Older server snapshot of the same deal. -/
def dealOld : DealRec :=
  DealRec.mk 1 2 3 1 1 (some 50) none none none (some "v1") 100

/-- C3 counterexample: after the newer response (updatedAt 200) has been
applied and is displayed, a late-arriving older response (updatedAt 100)
is applied verbatim and the displayed board regresses to the older data —
fetchDeals performs no updatedAt comparison against the displayed state. -/
theorem C3_counterexample :
    dealOld.updatedAt < dealNew.updatedAt ∧
    fetchDealsApply (some 1) [stageN] "all" "all" [dealNew] []
      = [StageColumn.mk stageN [dealNew] 100] ∧
    fetchDealsApply (some 1) [stageN] "all" "all" [dealOld]
        (fetchDealsApply (some 1) [stageN] "all" "all" [dealNew] [])
      = [StageColumn.mk stageN [dealOld] 50] := by
  decide

/-- C3 amended: outside the early-return paths (an active pipeline whose
stage props are loaded), the board produced by applying a fetch response
is a function of the response alone — it does not depend on the
previously displayed board at all, so responses take effect in arrival
order and a late older response replaces newer displayed state. -/
theorem C3_arrival_order_wins (pid : Nat) (pipelineStages : List StageRec)
    (spf lrf : String) (resp : List DealRec) (b1 b2 : List StageColumn)
    (h : pipelineStages.isEmpty = false) :
    fetchDealsApply (some pid) pipelineStages spf lrf resp b1
      = fetchDealsApply (some pid) pipelineStages spf lrf resp b2 := by
  simp [fetchDealsApply, h]

/-- Witness for C3 amended: the older response applied over the newer
board equals the older response applied over an empty board. -/
theorem C3_arrival_order_wins_witness :
    ([stageN] : List StageRec).isEmpty = false ∧
    fetchDealsApply (some 1) [stageN] "all" "all" [dealOld]
        [StageColumn.mk stageN [dealNew] 100]
      = fetchDealsApply (some 1) [stageN] "all" "all" [dealOld] [] :=
  ⟨by decide,
   C3_arrival_order_wins 1 [stageN] "all" "all" [dealOld]
     [StageColumn.mk stageN [dealNew] 100] [] (by decide)⟩
